import Mathlib

/-!
Verification of the connection-management layer of cf-remote
(`src/cf_remote/ssh.py`): the local/remote connection abstraction, the
candidate-user search in `connect`, the command dispatch policies
(`ssh_cmd`, `ssh_sudo`), the copy helper (`scp`) and the multiplexer
lifecycle.  Effectful collaborators (the `aramid` execution engine, the
OS process table, the shell) are modelled as explicit inputs (oracles),
so every definition is a pure, executable function of the code it embeds.
-/

namespace CfRemote

/-- Result of one completed command, `cf_remote.aramid.ExecutionResult`.
Modelled from the spec: the `aramid` module is not under `src/`; section 4.1
describes a pure record `{command, returnCode, stdout, stderr}` with no
behaviour beyond construction and field access.  `stderr` is an `Option`
because Python callers may store `None` there (the defensive
`result.stderr if result.stderr is not None else ""` at ssh.py lines
211/215/237/241 shows that happens). -/
structure ExecutionResult where
  command : String
  retcode : Int
  stdout : String
  stderr : Option String
  deriving Repr, DecidableEq

/-- A host handle handed to the execution engine, `aramid.Host`.
Modelled from the spec: section 6 says a HostHandle carries
`{host, user, port, extraTransportArgs}`; when the extra transport
arguments are omitted at the call site they default to none (empty). -/
structure AramidHost where
  host : String
  user : String
  port : Nat
  extra_ssh_args : List String
  deriving Repr, DecidableEq

/-- Python truthiness of an optional string: `None` and `""` are falsy. -/
def strTruthy : Option String → Bool
  | none => false
  | some s => !(s == "")

/-- Python truthiness of an optional list: `None` and `[]` are falsy. -/
def listTruthy : Option (List String) → Bool
  | none => false
  | some l => !(l.isEmpty)

/-- Python `s.replace("\r\n", "\n")` at the character-list level:
left-to-right, non-overlapping replacement of CR-LF pairs by LF. -/
def replaceCRLFList : List Char → List Char
  | [] => []
  | [c] => [c]
  | c1 :: c2 :: rest =>
    if c1 = '\x0d' ∧ c2 = '\n' then '\n' :: replaceCRLFList rest
    else c1 :: replaceCRLFList (c2 :: rest)

/-- Python `s.replace("\r\n", "\n")`. -/
def pyReplaceCRLF (s : String) : String := String.mk (replaceCRLFList s.data)

/-- Python `s.strip("\n")`: removes newline characters from BOTH ends of
the string (leading and trailing). -/
def pyStripNL (s : String) : String :=
  String.mk (((s.data.dropWhile (· = '\n')).reverse.dropWhile (· = '\n')).reverse)

/-- Removal of trailing newlines only.  This is the operation the spec's
words describe ("strip trailing newlines"); Python `strip` also removes
leading ones, so this definition exists to be compared against
`pyStripNL`. -/
def stripTrailingNLOnly (s : String) : String :=
  String.mk ((s.data.reverse.dropWhile (· = '\n')).reverse)

/-- Python `os.path.basename`: the part of the path after the last slash. -/
def basename (p : String) : String :=
  String.mk ((p.data.reverse.takeWhile (· ≠ '/')).reverse)

/-! ## Connection establishment (`connect`, ssh.py lines 121-160) -/

/-- The fixed fallback user list from `connect` (ssh.py lines 130-138). -/
def defaultUsers : List String :=
  ["Administrator", "admin", "ubuntu", "ec2-user", "centos", "vagrant", "root"]

/-- Candidate user list determination, ssh.py lines 126-142.
`users` is the optional explicit list, `parsedUsername` the username
embedded in the host string (as recovered by `urlparse`), `osUser` the
invoking OS user (`whoami()`).  Follows the source line by line,
including Python truthiness of `users` and `parts.username`. -/
def determineUsers (users : Option (List String)) (parsedUsername : Option String)
    (osUser : String) : List String :=
  let users1 : Option (List String) :=
    if !(listTruthy users) ∧ strTruthy parsedUsername then
      some [parsedUsername.getD ""]
    else users
  if !(listTruthy users1) then
    if osUser ∈ defaultUsers then defaultUsers else osUser :: defaultUsers
  else users1.getD []

/-- One connection attempt's environment: whether, for a given candidate
user, constructing the `Connection` (which launches the control master
and probes `echo $UID`) raises `aramid.ExecutionError`, and whether the
`whoami` verification run raises. -/
structure AttemptOracle where
  constructOk : String → Bool
  whoamiOk : String → Bool

/-- A candidate attempt succeeds when construction and the whoami
verification both finish without a transport execution error
(ssh.py lines 144-158: both are inside the same `try`). -/
def attemptOk (o : AttemptOracle) (u : String) : Bool :=
  o.constructOk u && o.whoamiOk u

/-- The connection record as bound by `connect` on success
(ssh.py lines 153-155). -/
structure Conn where
  ssh_host : String
  ssh_user : String
  ssh_port : Nat
  deriving Repr, DecidableEq

/-- The candidate loop of `connect`, ssh.py lines 143-160: try users in
order, first success wins; exhaustion reaches `sys.exit`, modelled as
`Except.error` carrying the exit diagnostic. -/
def connectFrom (o : AttemptOracle) (host : String) (port : Nat) :
    List String → Except String Conn
  | [] => Except.error ("Could not ssh into \x27" ++ host ++ "\x27")
  | u :: rest =>
    if attemptOk o u then Except.ok ⟨host, u, port⟩
    else connectFrom o host port rest

/-- Number of loop iterations (connection attempts) `connect` performs on
a given candidate list. -/
def connectAttemptCount (o : AttemptOracle) : List String → Nat
  | [] => 0
  | u :: rest =>
    if attemptOk o u then 1 else 1 + connectAttemptCount o rest

/-- The whole of `connect`: user-list determination followed by the
candidate loop.  `port` is `parts.port or 22` (line 128). -/
def connect (o : AttemptOracle) (host : String) (users : Option (List String))
    (parsedUsername : Option String) (osUser : String) (port : Nat) :
    Except String Conn :=
  connectFrom o host port (determineUsers users parsedUsername osUser)

/-! ## Remote Connection (ssh.py lines 49-118) -/

/-- The immutable configuration a `Connection` holds after `__init__`:
`ssh_host`, `ssh_user`, `ssh_port`, the optional `key_filename` entry of
`connect_kwargs` (`none` both when `connect_kwargs` is `None` and when the
dict has no such entry, matching the truthiness test at line 95), and the
control-channel path `self._control_path`. -/
structure Connection where
  ssh_host : String
  ssh_user : String
  ssh_port : Nat
  key_filename : Option String
  control_path : String
  deriving Repr, DecidableEq

/-- The extra ssh arguments `Connection.run` builds (ssh.py lines 94-102):
an identity-file flag when one was supplied at construction, then the
control path exactly when the non-blocking `poll()` of the control master
returned `None` (process still alive). -/
def runExtraSshArgs (key_filename : Option String) (control_path : String)
    (master_alive : Bool) : List String :=
  let extra : List String :=
    match key_filename with
    | some k => ["-i", k]
    | none => []
  if master_alive then extra ++ ["-oControlPath=" ++ control_path] else extra

/-- The single host handle `Connection.run` passes to `aramid.execute`
(ssh.py line 104). -/
def Connection.runHost (c : Connection) (master_alive : Bool) : AramidHost :=
  ⟨c.ssh_host, c.ssh_user, c.ssh_port,
    runExtraSshArgs c.key_filename c.control_path master_alive⟩

/-- `Connection.run` (ssh.py lines 93-106): delegate to the execution
engine for the single host and unwrap that host's first result.  The
engine is the `execute` oracle. -/
def Connection.run (execute : AramidHost → String → ExecutionResult)
    (c : Connection) (master_alive : Bool) (command : String) : ExecutionResult :=
  execute (c.runHost master_alive) command

/-- The single host handle `Connection.put` passes to `aramid.put`
(ssh.py line 110): host, user, port only — the extra-transport-arguments
slot is left at its default (no arguments). -/
def Connection.putHost (c : Connection) : AramidHost :=
  ⟨c.ssh_host, c.ssh_user, c.ssh_port, []⟩

/-- `Connection.put` (ssh.py lines 108-112): destination is the base name
of the source; returns the per-host retcode from the transfer engine
(the `put` oracle). -/
def Connection.put (put : AramidHost → String → String → Int)
    (c : Connection) (src : String) : Int :=
  put c.putHost src (basename src)

/-- Observable state of the owned control-master process: whether the
handle was stored, whether a non-blocking `poll()` would report the
process still running, and whether it has been sent SIGTERM. -/
structure MasterState where
  handlePresent : Bool
  alive : Bool
  signalled : Bool
  deriving Repr, DecidableEq

/-- `Connection.__exit__` (ssh.py lines 117-118): its body is `pass`; the
state of the owned multiplexer process is untouched. -/
def Connection.exitStep (s : MasterState) : MasterState := s

/-- `Connection.__del__` (ssh.py lines 85-91): if a control-master handle
exists and `poll()` shows it still running, send SIGTERM; otherwise do
nothing. -/
def Connection.delStep (s : MasterState) : MasterState :=
  if s.handlePresent ∧ s.alive then { s with signalled := true } else s

/-! ## Local Executor (ssh.py lines 16-46) -/

/-- The record `subprocess.run` produces under
`stdout=PIPE, stderr=STDOUT, universal_newlines=True`. -/
structure CompletedProcess where
  returncode : Int
  stdout : String
  stderr : Option String
  deriving Repr, DecidableEq

/-- Python `subprocess.run` with `stdout=subprocess.PIPE` and
`stderr=subprocess.STDOUT` (ssh.py lines 29-36): standard error is merged
into the captured stdout and `CompletedProcess.stderr` is `None`, because
stderr was not captured separately (documented `subprocess` semantics).
The shell's exit code and the merged output are the oracle inputs. -/
def subprocessRunMerged (code : Int) (combined : String) : CompletedProcess :=
  ⟨code, combined, none⟩

/-- `LocalConnection.run` (ssh.py lines 25-38): spawn the shell, then
build `ExecutionResult(command, result.returncode, result.stdout,
result.stderr)` from the completed process. -/
def LocalConnection.run (command : String) (code : Int) (combined : String) :
    ExecutionResult :=
  let result := subprocessRunMerged code combined
  ⟨command, result.returncode, result.stdout, result.stderr⟩

/-! ## Command dispatch policies (ssh.py lines 200-244) -/

/-- `ssh_cmd` (ssh.py lines 200-218), given the `ExecutionResult` that
`connection.run(cmd, hide=True)` produced.  On retcode 0 the output is
CRLF-normalized and `strip`-ped of newlines; otherwise both the
`errors=True` branch (print + log.error) and the `errors=False` branch
(debug logging) return `None`.  The `errors` flag only selects logging,
so it is carried but cannot influence the value. -/
def ssh_cmd (result : ExecutionResult) (errors : Bool) : Option String :=
  if result.retcode = 0 then
    some (pyStripNL (pyReplaceCRLF result.stdout))
  else
    match errors with
    | true => none
    | false => none

/-- Removal of leading newlines only; composed with
`stripTrailingNLOnly` this gives the both-ended strip that Python
`strip("\n")` performs. -/
def stripLeadingNLOnly (s : String) : String :=
  String.mk (s.data.dropWhile (· = '\n'))

/-- The success value of `ssh_cmd` as the spec words it: CRLF normalized,
then only TRAILING newlines stripped.  To be compared with `ssh_cmd`. -/
def ssh_cmd_specWorded (result : ExecutionResult) : Option String :=
  if result.retcode = 0 then
    some (stripTrailingNLOnly (pyReplaceCRLF result.stdout))
  else none

/-- Python `cmd.replace('"', '\\"')` (ssh.py line 225): each double quote
becomes backslash double-quote. -/
def escapeDQList : List Char → List Char
  | [] => []
  | c :: rest =>
    if c = '\x22' then '\\' :: '\x22' :: escapeDQList rest
    else c :: escapeDQList rest

/-- Python `cmd.replace('"', '\\"')` on strings. -/
def escapeDQ (s : String) : String := String.mk (escapeDQList s.data)

/-- The elevated form of a command (ssh.py lines 225-226):
`sudo bash -c "<escaped command>"`. -/
def sudoWrap (cmd : String) : String :=
  "sudo bash -c \x22" ++ escapeDQ cmd ++ "\x22"

/-- The command string `ssh_sudo` actually executes (ssh.py lines
224-229): wrapped when the connection needs sudo, verbatim otherwise. -/
def ssh_sudo_dispatched (needs_sudo : Bool) (cmd : String) : String :=
  if needs_sudo then sudoWrap cmd else cmd

/-- `ssh_sudo` (ssh.py lines 221-244): run the (possibly wrapped) command
through the connection — the `run` oracle maps the executed command
string to its `ExecutionResult` — then on retcode 0 strip newlines from
the stdout (no CRLF normalization); on failure return `None` in both the
`errors=True` and `errors=False` branches. -/
def ssh_sudo (run : String → ExecutionResult) (needs_sudo : Bool)
    (cmd : String) (errors : Bool) : Option String :=
  let result := run (ssh_sudo_dispatched needs_sudo cmd)
  if result.retcode = 0 then
    some (pyStripNL result.stdout)
  else
    match errors with
    | true => none
    | false => none

/-- The success value of `ssh_sudo` as the spec words it: only TRAILING
newlines stripped, no CRLF normalization.  To be compared with
`ssh_sudo`. -/
def ssh_sudo_specWorded (run : String → ExecutionResult) (needs_sudo : Bool)
    (cmd : String) : Option String :=
  let result := run (ssh_sudo_dispatched needs_sudo cmd)
  if result.retcode = 0 then some (stripTrailingNLOnly result.stdout)
  else none

/-! ## Remote copy helper (`scp`, ssh.py lines 182-197) -/

set_option linter.unusedVariables false in
/-- The body of `scp` once a connection is in hand (ssh.py lines
187-197): put the file, then under a truthy `rename` compare it with the
base name — equal means early `return 0` with no rename, different means
one unprivileged `mv <basename> <rename>` through `ssh_cmd`; the fall
through returns 0.  The result records the return value and the list of
commands dispatched through `ssh_cmd`; `put_retcode` is what
`connection.put` returned and is visibly discarded. -/
def scpWithConnection (put_retcode : Int) (file : String)
    (rename : Option String) : Int × List String :=
  if strTruthy rename then
    let base := basename file
    let r := rename.getD ""
    if base = r then (0, [])
    else (0, ["mv " ++ base ++ " " ++ r])
  else (0, [])

/-- The whole of `scp` (ssh.py lines 182-197): with no connection it
establishes one via `connect` (whose outcome is `connectResult`; a
`sys.exit` there propagates) and recurses; with a connection it runs the
body.  The outer call's own `return 0` discards the inner value, which is
the same pair. -/
def scp (connectResult : Except String Conn) (connection : Option Conn)
    (put_retcode : Int) (file : String) (rename : Option String) :
    Except String (Int × List String) :=
  match connection with
  | none =>
    match connectResult with
    | Except.error e => Except.error e
    | Except.ok _ => Except.ok (scpWithConnection put_retcode file rename)
  | some _ => Except.ok (scpWithConnection put_retcode file rename)

/-! ## Shared lemmas -/

/-- Python `strip("\n")` factors as leading-strip followed by
trailing-strip. -/
theorem pyStripNL_eq_both (s : String) :
    pyStripNL s = stripTrailingNLOnly (stripLeadingNLOnly s) := rfl

/-- The fixed fallback user list has no duplicates. -/
theorem defaultUsers_nodup : defaultUsers.Nodup := by decide

/-! ## C2: default candidate user list -/

/-- C2: with no explicit user list and no username embedded in the host
string (both absent or Python-falsy), the candidate list is exactly the
fixed fallback order with the invoking OS user prepended as first
element when absent from it, and the unchanged fallback list (the OS
user occurring exactly once, not duplicated) when present. -/
theorem connect_default_user_list (users : Option (List String))
    (parsedUsername : Option String) (osUser : String)
    (hu : listTruthy users = false) (hp : strTruthy parsedUsername = false) :
    determineUsers users parsedUsername osUser
      = (if osUser ∈ defaultUsers then defaultUsers else osUser :: defaultUsers)
    ∧ (determineUsers users parsedUsername osUser).count osUser = 1
    ∧ (osUser ∉ defaultUsers →
        (determineUsers users parsedUsername osUser).head? = some osUser
        ∧ (determineUsers users parsedUsername osUser).tail = defaultUsers) := by
  have hbase : determineUsers users parsedUsername osUser
      = (if osUser ∈ defaultUsers then defaultUsers else osUser :: defaultUsers) := by
    simp [determineUsers, hu, hp]
  refine ⟨hbase, ?_, ?_⟩
  · rw [hbase]
    by_cases h : osUser ∈ defaultUsers
    · rw [if_pos h]
      exact List.count_eq_one_of_mem defaultUsers_nodup h
    · rw [if_neg h]
      rw [List.count_cons_self]
      rw [List.count_eq_zero.mpr h]
  · intro h
    rw [hbase, if_neg h]
    exact ⟨rfl, rfl⟩

/-- Witness for C2 at concrete OS users, one absent from the fallback
list and one present in it (explicit list and embedded username both
absent). -/
theorem connect_default_user_list_witness :
    determineUsers none none "alice"
      = "alice" :: defaultUsers
    ∧ determineUsers none none "root" = defaultUsers
    ∧ (determineUsers none none "root").count "root" = 1 := by
  refine ⟨?_, ?_, (connect_default_user_list none none "root" rfl rfl).2.1⟩
  · have h := (connect_default_user_list none none "alice" rfl rfl).1
    rwa [if_neg (by decide)] at h
  · have h := (connect_default_user_list none none "root" rfl rfl).1
    rwa [if_pos (by decide)] at h

/-! ## C4: unprivileged dispatch `ssh_cmd` -/

/-- C4 counterexample: the claim says the success value is the stdout
with CRLF normalized and TRAILING newlines stripped, but Python
`strip("\n")` also removes LEADING newlines: on stdout `"\nok"` with
retcode 0 the code returns `"ok"`, not the `"\nok"` the claim's wording
produces. -/
theorem ssh_cmd_strip_claim_counterexample :
    ssh_cmd ⟨"cat f", 0, "\nok", none⟩ false = some "ok"
    ∧ ssh_cmd_specWorded ⟨"cat f", 0, "\nok", none⟩ = some "\nok"
    ∧ ssh_cmd ⟨"cat f", 0, "\nok", none⟩ false
        ≠ ssh_cmd_specWorded ⟨"cat f", 0, "\nok", none⟩ := by
  refine ⟨rfl, rfl, by decide⟩

/-- C4 amended: on retcode 0, `ssh_cmd` returns the stdout with every
CRLF replaced by LF and then LEADING AND TRAILING newlines stripped; on
any non-zero retcode it returns `none` in both the surfaced-errors and
silent branches (and, being a total function of the result, never
raises). -/
theorem ssh_cmd_behaviour (r : ExecutionResult) (errors : Bool) :
    (r.retcode = 0 →
      ssh_cmd r errors
        = some (stripTrailingNLOnly (stripLeadingNLOnly (pyReplaceCRLF r.stdout))))
    ∧ (r.retcode ≠ 0 → ssh_cmd r true = none ∧ ssh_cmd r false = none) := by
  constructor
  · intro h
    rw [← pyStripNL_eq_both]
    simp [ssh_cmd, h]
  · intro h
    constructor <;> simp [ssh_cmd, h]

/-- Witness for C4 at a concrete success (CRLF normalized, newlines
stripped) and a concrete failure. -/
theorem ssh_cmd_behaviour_witness :
    ssh_cmd ⟨"c", 0, "ok\x0d\n", none⟩ false = some "ok"
    ∧ ssh_cmd ⟨"c", 2, "boom", none⟩ true = none := by
  constructor
  · have h := (ssh_cmd_behaviour ⟨"c", 0, "ok\x0d\n", none⟩ false).1 rfl
    have he : stripTrailingNLOnly (stripLeadingNLOnly (pyReplaceCRLF "ok\x0d\n")) = "ok" := by
      decide
    rw [h, he]
  · exact ((ssh_cmd_behaviour ⟨"c", 2, "boom", none⟩ true).2 (by decide)).1

/-! ## C5: privileged dispatch `ssh_sudo` -/

/-- C5 counterexample: as for `ssh_cmd`, the success value strips
newlines from BOTH ends, not only trailing ones: with `needs_sudo`
false and the executed command producing retcode 0 and stdout `"\nok"`,
the code returns `"ok"` where the claim's wording produces `"\nok"`. -/
theorem ssh_sudo_strip_claim_counterexample :
    ssh_sudo (fun c => ⟨c, 0, "\nok", none⟩) false "x" false = some "ok"
    ∧ ssh_sudo_specWorded (fun c => ⟨c, 0, "\nok", none⟩) false "x" = some "\nok"
    ∧ ssh_sudo (fun c => ⟨c, 0, "\nok", none⟩) false "x" false
        ≠ ssh_sudo_specWorded (fun c => ⟨c, 0, "\nok", none⟩) false "x" := by
  refine ⟨rfl, rfl, by decide⟩

/-- C5 amended: when the connection needs elevation the dispatched
command is `sudo bash -c "<command with embedded double quotes
escaped>"`, and the unmodified command otherwise; on retcode 0 the
returned value is the stdout with LEADING AND TRAILING newlines stripped
and no CRLF normalization; on non-zero retcode `none` is returned in
both the surfaced-errors and silent branches. -/
theorem ssh_sudo_behaviour (run : String → ExecutionResult) (needs_sudo : Bool)
    (cmd : String) :
    ssh_sudo_dispatched true cmd = "sudo bash -c \x22" ++ escapeDQ cmd ++ "\x22"
    ∧ ssh_sudo_dispatched false cmd = cmd
    ∧ ((run (ssh_sudo_dispatched needs_sudo cmd)).retcode = 0 →
        ∀ errors, ssh_sudo run needs_sudo cmd errors
          = some (stripTrailingNLOnly (stripLeadingNLOnly
              ((run (ssh_sudo_dispatched needs_sudo cmd)).stdout))))
    ∧ ((run (ssh_sudo_dispatched needs_sudo cmd)).retcode ≠ 0 →
        ssh_sudo run needs_sudo cmd true = none
        ∧ ssh_sudo run needs_sudo cmd false = none) := by
  refine ⟨rfl, rfl, ?_, ?_⟩
  · intro h errors
    rw [← pyStripNL_eq_both]
    simp [ssh_sudo, h]
  · intro h
    constructor <;> simp [ssh_sudo, h]

/-- Witness for C5: a quoted command gets wrapped with its double quotes
escaped; a success keeps an embedded CR (no CRLF normalization) while
newlines are stripped; a failure returns none. -/
theorem ssh_sudo_behaviour_witness :
    ssh_sudo_dispatched true "echo \x22hi\x22"
      = "sudo bash -c \x22echo \\\x22hi\\\x22\x22"
    ∧ ssh_sudo (fun _ => ⟨"", 0, "ok\x0d\n", none⟩) true "echo \x22hi\x22" false
      = some "ok\x0d"
    ∧ ssh_sudo (fun _ => ⟨"", 3, "", none⟩) false "ls" false = none := by
  refine ⟨?_, ?_, ?_⟩
  · have h := (ssh_sudo_behaviour (fun _ => ⟨"", 0, "", none⟩) true "echo \x22hi\x22").1
    rw [h]
    decide
  · have h := ((ssh_sudo_behaviour (fun _ => ⟨"", 0, "ok\x0d\n", none⟩) true
      "echo \x22hi\x22").2.2.1 rfl) false
    rw [h]
    decide
  · exact ((ssh_sudo_behaviour (fun _ => ⟨"", 3, "", none⟩) false "ls").2.2.2
      (by decide)).2

/-! ## C1: candidate search order and first success -/

/-- C1: over any candidate list, when every candidate before position
`k` fails (construction or whoami raising a transport execution error)
and the candidate at position `k` succeeds at both, `connect` performs
exactly `k + 1` attempts — candidates are tried strictly in list order
and the loop stops at the first success — and the returned connection
records that succeeding candidate as its user (with the requested host
and port). -/
theorem connect_tries_in_order_first_success
    (o : AttemptOracle) (host : String) (port : Nat) (us : List String)
    (k : Nat) (hk : k < us.length)
    (hfail : ∀ i (hi : i < us.length), i < k → attemptOk o (us.get ⟨i, hi⟩) = false)
    (hsucc : attemptOk o (us.get ⟨k, hk⟩) = true) :
    connectAttemptCount o us = k + 1
    ∧ connectFrom o host port us = Except.ok ⟨host, us.get ⟨k, hk⟩, port⟩ := by
  induction us generalizing k with
  | nil => exact absurd hk (Nat.not_lt_zero k)
  | cons u rest ih =>
    cases k with
    | zero =>
      have h0 : attemptOk o u = true := hsucc
      exact ⟨by simp [connectAttemptCount, h0], by simp [connectFrom, h0]⟩
    | succ k' =>
      have hu : attemptOk o u = false :=
        hfail 0 (Nat.succ_pos rest.length) (Nat.succ_pos k')
      have hk' : k' < rest.length := Nat.lt_of_succ_lt_succ hk
      have hfail' : ∀ i (hi : i < rest.length), i < k' →
          attemptOk o (rest.get ⟨i, hi⟩) = false := by
        intro i hi hik
        exact hfail (i + 1) (Nat.succ_lt_succ hi) (Nat.succ_lt_succ hik)
      have hsucc' : attemptOk o (rest.get ⟨k', hk'⟩) = true := hsucc
      obtain ⟨h1, h2⟩ := ih k' hk' hfail' hsucc'
      constructor
      · simp only [connectAttemptCount, hu, if_neg, Bool.false_eq_true,
          ite_false, h1]
        omega
      · simpa [connectFrom, hu] using h2

/-- Witness for C1: of three candidates only the third succeeds, so
exactly three attempts happen and the returned connection records the
third candidate as its user. -/
theorem connect_tries_in_order_first_success_witness :
    connectAttemptCount ⟨fun u => u == "carol", fun _ => true⟩ ["alice", "bob", "carol"] = 3
    ∧ connectFrom ⟨fun u => u == "carol", fun _ => true⟩ "example.com" 22
        ["alice", "bob", "carol"]
      = Except.ok ⟨"example.com", "carol", 22⟩ := by
  have h := connect_tries_in_order_first_success
    ⟨fun u => u == "carol", fun _ => true⟩ "example.com" 22 ["alice", "bob", "carol"]
    2 (by decide) (by decide) (by decide)
  exact h

/-! ## C3: exhaustion terminates the process -/

/-- C3: when every candidate user fails, `connect` does not produce a
connection: it reaches `sys.exit` with the diagnostic naming the host,
`Could not ssh into '<host>'`.  Moreover this is the only abort in the
layer: any process-exit that `scp` can surface is exactly one propagated
from its internal connection establishment (the dispatch operations
`ssh_cmd` and `ssh_sudo` return options and contain no exit at all). -/
theorem connect_exhaustion_exits (o : AttemptOracle) (host : String)
    (port : Nat) (us : List String)
    (hall : ∀ u ∈ us, attemptOk o u = false) :
    connectFrom o host port us
      = Except.error ("Could not ssh into \x27" ++ host ++ "\x27")
    ∧ (∀ cr conn prc f rn e, scp cr conn prc f rn = Except.error e →
        conn = none ∧ cr = Except.error e) := by
  constructor
  · induction us with
    | nil => rfl
    | cons u rest ih =>
      have hu : attemptOk o u = false := hall u (List.mem_cons_self u rest)
      have hrest : ∀ v ∈ rest, attemptOk o v = false := by
        intro v hv
        exact hall v (List.mem_cons_of_mem u hv)
      simpa [connectFrom, hu] using ih hrest
  · intro cr conn prc f rn e h
    cases conn with
    | some c => simp [scp] at h
    | none =>
      cases cr with
      | ok c => simp [scp] at h
      | error e2 =>
        simp only [scp, Except.error.injEq] at h
        exact ⟨rfl, by rw [h]⟩

/-- Witness for C3: with a single candidate that always fails, `connect`
on host `example.com` ends in the process-exit diagnostic naming that
host. -/
theorem connect_exhaustion_exits_witness :
    connectFrom ⟨fun _ => false, fun _ => false⟩ "example.com" 22 ["root"]
      = Except.error ("Could not ssh into \x27example.com\x27") := by
  have h := connect_exhaustion_exits ⟨fun _ => false, fun _ => false⟩
    "example.com" 22 ["root"] (by decide)
  exact h.1

/-! ## C6: control-channel reuse in `Connection.run` -/

/-- A control-path option string is never the identity-file flag. -/
theorem controlPathArg_ne_dash_i (cp : String) : "-oControlPath=" ++ cp ≠ "-i" := by
  intro h
  have hlen := congrArg String.length h
  rw [String.length_append] at hlen
  have h14 : ("-oControlPath=" : String).length = 14 := rfl
  have h2 : ("-i" : String).length = 2 := rfl
  rw [h14, h2] at hlen
  omega

/-- C6: `Connection.run` includes the control-channel path among the
extra transport arguments exactly when the non-blocking poll reports the
background multiplexer still alive (assuming the identity file supplied
at construction is not itself spelled like that option); when the
multiplexer is dead the extra arguments are just the identity-file flag
(if any) and the command is still dispatched to the execution engine
rather than failing. -/
theorem connection_run_control_path_iff_alive
    (execute : AramidHost → String → ExecutionResult) (c : Connection)
    (cmd : String) (alive : Bool)
    (hk : ∀ k, c.key_filename = some k → k ≠ "-oControlPath=" ++ c.control_path) :
    (("-oControlPath=" ++ c.control_path) ∈ (c.runHost alive).extra_ssh_args
      ↔ alive = true)
    ∧ (alive = false → (c.runHost alive).extra_ssh_args
        = (match c.key_filename with | some k => ["-i", k] | none => []))
    ∧ Connection.run execute c alive cmd = execute (c.runHost alive) cmd := by
  refine ⟨⟨?_, ?_⟩, ?_, rfl⟩
  · intro hmem
    cases alive with
    | true => rfl
    | false =>
      exfalso
      cases hkf : c.key_filename with
      | none =>
        rw [Connection.runHost] at hmem
        simp [runExtraSshArgs, hkf] at hmem
      | some k =>
        rw [Connection.runHost] at hmem
        simp only [runExtraSshArgs, hkf, Bool.false_eq_true, if_false,
          List.mem_cons, List.mem_singleton, List.not_mem_nil] at hmem
        rcases hmem with h1 | h2
        · exact controlPathArg_ne_dash_i c.control_path h1
        · rcases h2 with h2 | h2
          · exact hk k hkf h2.symm
          · exact h2
  · intro ha
    subst ha
    cases hkf : c.key_filename with
    | none => simp [Connection.runHost, runExtraSshArgs, hkf]
    | some k => simp [Connection.runHost, runExtraSshArgs, hkf]
  · intro ha
    subst ha
    cases hkf : c.key_filename with
    | none => simp [Connection.runHost, runExtraSshArgs, hkf]
    | some k => simp [Connection.runHost, runExtraSshArgs, hkf]

/-- Witness for C6 at a concrete connection with an identity file: the
control path is among the extra arguments when the multiplexer is alive
and absent (leaving only the identity flag) when it is dead, and the
command is executed either way. -/
theorem connection_run_control_path_iff_alive_witness :
    (("-oControlPath=" ++ "/tmp/cm") ∈
      (Connection.runHost ⟨"h", "u", 22, some "/id", "/tmp/cm"⟩ true).extra_ssh_args)
    ∧ (Connection.runHost ⟨"h", "u", 22, some "/id", "/tmp/cm"⟩ false).extra_ssh_args
        = ["-i", "/id"]
    ∧ Connection.run (fun _ c => ⟨c, 0, "", none⟩)
        ⟨"h", "u", 22, some "/id", "/tmp/cm"⟩ false "ls"
      = (fun (_ : AramidHost) (c : String) => (⟨c, 0, "", none⟩ : ExecutionResult))
          (Connection.runHost ⟨"h", "u", 22, some "/id", "/tmp/cm"⟩ false) "ls" := by
  have h := connection_run_control_path_iff_alive (fun _ c => ⟨c, 0, "", none⟩)
    ⟨"h", "u", 22, some "/id", "/tmp/cm"⟩ "ls" false
    (by intro k hkk; simp at hkk; subst hkk; decide)
  have h2 := connection_run_control_path_iff_alive (fun _ c => ⟨c, 0, "", none⟩)
    ⟨"h", "u", 22, some "/id", "/tmp/cm"⟩ "ls" true
    (by intro k hkk; simp at hkk; subst hkk; decide)
  exact ⟨h2.1.mpr rfl, h.2.1 rfl, h.2.2⟩

/-! ## C7: the copy helper `scp` -/

/-- C7 counterexample: the claim says a `renameTo` differing from the
transferred file's base name issues exactly one `mv`, but a rename of
the EMPTY string — which differs from the base name `a.txt` — is falsy
in Python, so the whole rename block is skipped and no `mv` is issued. -/
theorem scp_rename_claim_counterexample :
    scpWithConnection 0 "a.txt" (some "") = (0, [])
    ∧ some "" ≠ some (basename "a.txt")
    ∧ (scpWithConnection 0 "a.txt" (some "")).2.length ≠ 1 := by
  refine ⟨rfl, by decide, by decide⟩

/-- C7 amended: a normally-completing `scp` always returns 0 (the
transfer's own return code is discarded); a truthy (non-empty) rename
differing from the base name issues exactly one unprivileged `mv
<basename> <renameTo>`; a rename equal to the base name, an absent
rename, or an empty (falsy) rename issues no command. -/
theorem scp_returns_zero_and_rename (cr : Except String Conn)
    (conn : Option Conn) (prc : Int) (file : String) (rename : Option String) :
    (∀ res, scp cr conn prc file rename = Except.ok res → res.1 = 0)
    ∧ (∀ r, rename = some r → r ≠ "" → r ≠ basename file →
        (scpWithConnection prc file rename).2
          = ["mv " ++ basename file ++ " " ++ r])
    ∧ (∀ r, rename = some r → r = basename file →
        (scpWithConnection prc file rename).2 = [])
    ∧ (rename = none → (scpWithConnection prc file rename).2 = []) := by
  refine ⟨?_, ?_, ?_, ?_⟩
  · intro res h
    cases conn with
    | some c =>
      simp only [scp, Except.ok.injEq] at h
      rw [← h]
      cases hr : rename with
      | none => simp [scpWithConnection, hr, strTruthy]
      | some r =>
        by_cases hre : r = ""
        · subst hre; simp [scpWithConnection, hr, strTruthy]
        · by_cases hb : basename file = r
          · simp [scpWithConnection, hr, strTruthy, hre, hb]
          · simp [scpWithConnection, hr, strTruthy, hre, hb]
    | none =>
      cases cr with
      | error e => simp [scp] at h
      | ok c =>
        simp only [scp, Except.ok.injEq] at h
        rw [← h]
        cases hr : rename with
        | none => simp [scpWithConnection, hr, strTruthy]
        | some r =>
          by_cases hre : r = ""
          · subst hre; simp [scpWithConnection, hr, strTruthy]
          · by_cases hb : basename file = r
            · simp [scpWithConnection, hr, strTruthy, hre, hb]
            · simp [scpWithConnection, hr, strTruthy, hre, hb]
  · intro r hr hre hrb
    subst hr
    have ht : strTruthy (some r) = true := by
      simp [strTruthy, hre]
    have hb : ¬ (basename file = r) := fun h => hrb h.symm
    simp [scpWithConnection, ht, hb]
  · intro r hr hrb
    subst hr
    by_cases hre : r = ""
    · subst hre; simp [scpWithConnection, strTruthy]
    · have ht : strTruthy (some r) = true := by simp [strTruthy, hre]
      simp [scpWithConnection, ht, hrb.symm]
  · intro hr
    subst hr
    simp [scpWithConnection, strTruthy]

/-- Witness for C7: renaming `d/a.txt` to `b` issues exactly the one
command `mv a.txt b` and the helper returns 0. -/
theorem scp_returns_zero_and_rename_witness :
    (scpWithConnection 7 "d/a.txt" (some "b")).2
      = ["mv " ++ basename "d/a.txt" ++ " " ++ "b"]
    ∧ (scpWithConnection 7 "d/a.txt" (some "b")).1 = 0 := by
  have h := scp_returns_zero_and_rename (Except.ok ⟨"h", "u", 22⟩)
    (some ⟨"h", "u", 22⟩) 7 "d/a.txt" (some "b")
  refine ⟨h.2.1 "b" rfl (by decide) (by decide), ?_⟩
  exact h.1 (scpWithConnection 7 "d/a.txt" (some "b")) rfl

/-! ## C8: execution-result field guarantees -/

/-- C8 counterexample: a local run merges stderr into stdout
(`stderr=subprocess.STDOUT`), so the `CompletedProcess.stderr` handed to
`ExecutionResult` is `None` — the `stderr` field of every local result
is absent, not a (possibly empty) string.  The defensive
`result.stderr if result.stderr is not None else ""` branches at ssh.py
lines 211/215/237/241 corroborate that the field can be `None`. -/
theorem local_run_stderr_absent :
    (LocalConnection.run "echo hi" 0 "hi\n").stderr = none
    ∧ (LocalConnection.run "echo hi" 0 "hi\n").stderr.isSome = false := by
  exact ⟨rfl, rfl⟩

/-- C8 amended: a local run's `ExecutionResult` carries the command, the
shell's return code unchanged — so `retcode = 0` exactly when the shell
reported success — and the captured merged output as its `stdout`
string; its `stderr` field, however, is `None` (stderr was merged into
stdout), not a string. -/
theorem local_run_result_fields (cmd : String) (code : Int) (out : String) :
    (LocalConnection.run cmd code out).command = cmd
    ∧ (LocalConnection.run cmd code out).retcode = code
    ∧ ((LocalConnection.run cmd code out).retcode = 0 ↔ code = 0)
    ∧ (LocalConnection.run cmd code out).stdout = out
    ∧ (LocalConnection.run cmd code out).stderr = none :=
  ⟨rfl, rfl, Iff.rfl, rfl, rfl⟩

/-! ## C9: scope-exit release of the multiplexer -/

/-- C9 counterexample: leaving the `with` scope calls `__exit__`, whose
body is `pass`: on a state with a live, never-signalled control master
the scope exit leaves the process alive and unsignalled — no release is
performed at scope exit. -/
theorem exit_performs_no_release_counterexample :
    Connection.exitStep ⟨true, true, false⟩ = ⟨true, true, false⟩
    ∧ (Connection.exitStep ⟨true, true, false⟩).signalled = false
    ∧ (Connection.exitStep ⟨true, true, false⟩).alive = true := by
  exact ⟨rfl, rfl, rfl⟩

/-- C9 amended: the context manager's `__exit__` performs no release at
all (it is the identity on the multiplexer state); the release —
SIGTERM to the control master — is implemented only in the finalizer
`__del__`, which signals exactly when a handle exists and the process
still polls as running, and tolerates (does nothing on) an already-dead
process or an absent handle, so a second teardown after the process has
exited signals nothing further. -/
theorem lifecycle_release_in_finalizer (s : MasterState) :
    Connection.exitStep s = s
    ∧ (s.handlePresent = true → s.alive = true →
        Connection.delStep s = { s with signalled := true })
    ∧ (s.alive = false → Connection.delStep s = s)
    ∧ (s.handlePresent = false → Connection.delStep s = s) := by
  refine ⟨rfl, ?_, ?_, ?_⟩
  · intro hp ha
    simp [Connection.delStep, hp, ha]
  · intro ha
    simp [Connection.delStep, ha]
  · intro hp
    simp [Connection.delStep, hp]

/-- Witness for C9: scope exit over a live master changes nothing; the
finalizer signals the live master; a dead master is left alone. -/
theorem lifecycle_release_in_finalizer_witness :
    Connection.exitStep ⟨true, true, false⟩ = ⟨true, true, false⟩
    ∧ Connection.delStep ⟨true, true, false⟩ = ⟨true, true, true⟩
    ∧ Connection.delStep ⟨true, false, true⟩ = ⟨true, false, true⟩ := by
  refine ⟨(lifecycle_release_in_finalizer ⟨true, true, false⟩).1, ?_, ?_⟩
  · exact (lifecycle_release_in_finalizer ⟨true, true, false⟩).2.1 rfl rfl
  · exact (lifecycle_release_in_finalizer ⟨true, false, true⟩).2.2.1 rfl

/-! ## C10: `Connection.put` passes no extra transport arguments -/

/-- C10: the host handle `Connection.put` hands to the transfer engine
carries the connection's host, user and port but an empty
extra-transport-argument list — in particular neither the identity-file
flag nor the control-channel path, whatever the multiplexer's state —
whereas `Connection.run` with a live multiplexer always passes a
non-empty argument list containing that control path. -/
theorem put_host_no_extra_args (c : Connection) :
    c.putHost.extra_ssh_args = []
    ∧ c.putHost.host = c.ssh_host
    ∧ c.putHost.user = c.ssh_user
    ∧ c.putHost.port = c.ssh_port
    ∧ ("-oControlPath=" ++ c.control_path) ∉ c.putHost.extra_ssh_args
    ∧ (∀ k, c.key_filename = some k → k ∉ c.putHost.extra_ssh_args)
    ∧ ("-oControlPath=" ++ c.control_path) ∈ (c.runHost true).extra_ssh_args := by
  refine ⟨rfl, rfl, rfl, rfl, ?_, ?_, ?_⟩
  · intro h
    exact absurd h (List.not_mem_nil _)
  · intro k _ h
    exact absurd h (List.not_mem_nil _)
  · cases hkf : c.key_filename with
    | none => simp [Connection.runHost, runExtraSshArgs, hkf]
    | some k => simp [Connection.runHost, runExtraSshArgs, hkf]

/-- Witness for C10 at a concrete connection holding an identity file
and a live multiplexer. -/
theorem put_host_no_extra_args_witness :
    (Connection.putHost ⟨"h", "u", 22, some "/id", "/tmp/cm"⟩).extra_ssh_args = []
    ∧ ("-oControlPath=" ++ "/tmp/cm")
        ∈ (Connection.runHost ⟨"h", "u", 22, some "/id", "/tmp/cm"⟩ true).extra_ssh_args
    ∧ "/id" ∉ (Connection.putHost ⟨"h", "u", 22, some "/id", "/tmp/cm"⟩).extra_ssh_args := by
  have h := put_host_no_extra_args ⟨"h", "u", 22, some "/id", "/tmp/cm"⟩
  exact ⟨h.1, h.2.2.2.2.2.2, h.2.2.2.2.2.1 "/id" rfl⟩

end CfRemote
